import Mathlib

/-!
Verification development for the shopcarts service
(`src/service/models.py`, `src/service/routes.py`).

The embedding translates the two source files into Lean:

* JSON request and response bodies become the inductive `JVal`
  (Python dict / list / int / str / float / None).
* The in-memory, dynamically typed SQLAlchemy objects become
  `ProductObj` and `ShopcartObj`, whose fields hold arbitrary `JVal`
  values, exactly as Python attribute assignment does.
* The database becomes `DBState`: a list of Shopcart rows (each row is
  just its `customer_id` primary-key column, models.py line 156) and a
  list of typed `ProductRow` values for the `product` table columns
  (models.py lines 60-66).
* Each Flask route becomes a function from its path parameters, its
  request body and a `DBState` to a response paired with the new
  `DBState`.  `abort(code, msg)` becomes `Resp.httpError code msg`;
  `make_response(jsonify(x), code)` becomes `Resp.json code x`;
  `make_response("", 204)` becomes `Resp.empty 204`.  The media-type
  guard `check_content_type` belongs to the excluded request layer and
  is modelled as passing.
-/

set_option autoImplicit false

namespace Shopcarts

/-- JSON values, standing for the Python values that appear in request
and response bodies: dicts, lists, ints, strings, floats and `None`.
Python floats are modelled as rationals; no claim performs float
arithmetic, only copying and comparison of serialized values. -/
inductive JVal where
  | jint (n : Int)
  | jstr (s : String)
  | jrat (q : Rat)
  | jnull
  | jarr (elems : List JVal)
  | jobj (fields : List (String × JVal))

/-- Python dict key lookup `d[k]` / `d.get(k)`: first binding wins
(dicts parsed from JSON have unique keys). `none` is `KeyError` for
`d[k]` and `None` for `d.get(k)`. -/
def jlookup : List (String × JVal) → String → Option JVal
  | [], _ => none
  | (k, v) :: rest, key => if k = key then some v else jlookup rest key

/-- Python iteration `for x in v`: lists yield their elements, strings
yield their one-character substrings, dicts yield their keys; ints,
floats and `None` are not iterable (`TypeError`). -/
def iterElems : JVal → Option (List JVal)
  | .jarr xs => some xs
  | .jstr s => some (s.toList.map (fun c => .jstr (String.mk [c])))
  | .jobj kvs => some (kvs.map (fun kv => .jstr kv.1))
  | _ => none

/-- `DataValidationError` (models.py lines 18-21), split by which
`raise` produced it: the `except KeyError` branches carry the missing
field name, the `except TypeError` branches signal a non-mapping /
non-iterable body. -/
inductive DataValidationError where
  | productMissing (field : String)
  | productBadData
  | shopcartMissing (field : String)
  | shopcartBadData
deriving Repr, DecidableEq

/-- The in-memory `Product` object: Python attributes are dynamically
typed, so each column attribute holds an arbitrary `JVal`.  Field order
follows `Product.serialize` (models.py lines 104-112). -/
structure ProductObj where
  id : JVal
  shopcart_id : JVal
  name : JVal
  price : JVal
  quantity : JVal

/-- The in-memory `Shopcart` object: the `customer_id` attribute and
the `products` relationship collection (models.py lines 156-157). -/
structure ShopcartObj where
  customer_id : JVal
  products : List ProductObj

/-- `Product.serialize` (models.py lines 104-112). -/
def Product.serialize (p : ProductObj) : JVal :=
  .jobj
    [ ("id", p.id)
    , ("shopcart_id", p.shopcart_id)
    , ("name", p.name)
    , ("price", p.price)
    , ("quantity", p.quantity) ]

/-- `Product.deserialize` (models.py lines 114-133): reads the keys in
the order the assignments execute (`shopcart_id`, `name`, `price`,
`quantity`, `id`); a `KeyError` yields the missing-field error for the
first key absent in that order; subscripting a non-dict raises
`TypeError`, yielding the bad-data error.  Values are assigned without
any type check. -/
def Product.deserialize (data : JVal) : Except DataValidationError ProductObj :=
  match data with
  | .jobj kvs =>
    match jlookup kvs "shopcart_id" with
    | none => .error (.productMissing "shopcart_id")
    | some sid =>
      match jlookup kvs "name" with
      | none => .error (.productMissing "name")
      | some nm =>
        match jlookup kvs "price" with
        | none => .error (.productMissing "price")
        | some pr =>
          match jlookup kvs "quantity" with
          | none => .error (.productMissing "quantity")
          | some qt =>
            match jlookup kvs "id" with
            | none => .error (.productMissing "id")
            | some i => .ok ⟨i, sid, nm, pr, qt⟩
  | _ => .error .productBadData

/-- `Shopcart.serialize` (models.py lines 185-193): the dict with the
`customer_id` and the serialized `products` in collection order. -/
def Shopcart.serialize (cart : ShopcartObj) : JVal :=
  .jobj
    [ ("customer_id", cart.customer_id)
    , ("products", .jarr (cart.products.map Product.serialize)) ]

/-- The loop body of `Shopcart.deserialize` (models.py lines 205-208):
each entry is deserialized as a `Product` and appended to the
accumulated collection; a `DataValidationError` raised inside the loop
propagates unchanged (it is neither a `KeyError` nor a `TypeError`). -/
def deserializeProducts : List JVal → List ProductObj →
    Except DataValidationError (List ProductObj)
  | [], acc => .ok acc
  | item :: rest, acc =>
    match Product.deserialize item with
    | .error e => .error e
    | .ok p => deserializeProducts rest (acc ++ [p])

/-- `Shopcart.deserialize` (models.py lines 195-216): `customer_id` is
read with `data["customer_id"]` (missing key raises the missing-field
error; non-dict raises the bad-data error); `products` is read with
`data.get("products")`, so a missing key yields `None`, and iterating
`None` or another non-iterable raises `TypeError`, hence the bad-data
error.  Deserialized products are appended to the existing
`self.products` collection. -/
def Shopcart.deserialize (self : ShopcartObj) (data : JVal) :
    Except DataValidationError ShopcartObj :=
  match data with
  | .jobj kvs =>
    match jlookup kvs "customer_id" with
    | none => .error (.shopcartMissing "customer_id")
    | some cid =>
      match jlookup kvs "products" with
      | none => .error .shopcartBadData
      | some plist =>
        match iterElems plist with
        | none => .error .shopcartBadData
        | some items =>
          match deserializeProducts items self.products with
          | .error e => .error e
          | .ok ps => .ok ⟨cid, ps⟩
  | _ => .error .shopcartBadData

/-!
## The database

The two tables.  A `shopcart` row is its single column `customer_id`
(models.py line 156).  A `product` row has the typed columns of
models.py lines 60-66; the backing store enforces the declared column
types and primary-key uniqueness at flush time, while the in-memory
objects above stay dynamically typed.
-/

/-- A row of the `product` table (models.py lines 60-66). -/
structure ProductRow where
  id : Int
  shopcart_id : Int
  name : String
  price : Rat
  quantity : Int
deriving Repr, DecidableEq

/-- Loading a `product` row into an ORM object. -/
def ProductRow.toObj (r : ProductRow) : ProductObj :=
  ⟨.jint r.id, .jint r.shopcart_id, .jstr r.name, .jrat r.price, .jint r.quantity⟩

/-- The database: the `shopcart` table (list of `customer_id` values)
and the `product` table. -/
structure DBState where
  carts : List Int
  products : List ProductRow
deriving Repr, DecidableEq

/-- The `Shopcart.products` relationship (models.py line 157), which
joins `Product.shopcart_id` to `Shopcart.customer_id`. -/
def cartProducts (c : Int) (s : DBState) : List ProductRow :=
  s.products.filter (fun p => p.shopcart_id = c)

/-- Loading the cart with customer id `c` together with its products,
as the relationship presents it to `serialize`. -/
def loadCart (c : Int) (s : DBState) : ShopcartObj :=
  ⟨.jint c, (cartProducts c s).map ProductRow.toObj⟩

/-- `Shopcart.find_by_customer_id` (models.py lines 229-236):
`cls.query.filter(cls.customer_id == customer_id).first()`. -/
def Shopcart.find_by_customer_id (c : Int) (s : DBState) : Option Int :=
  s.carts.find? (fun x => x = c)

/-- Modelled from the spec: `Shopcart.find_by_id` is called throughout
routes.py (lines 38, 60, 82, 101, 107, 121, 167, 242, 256) but is not
defined in src/service/models.py.  Spec section 4.1 specifies the Cart
Store lookup as `find(customer_id)` returning the Shopcart or a
not-found signal, and the Shopcart identity is its `customer_id`
primary key, so the lookup coincides with `find_by_customer_id`. -/
def Shopcart.find_by_id (c : Int) (s : DBState) : Option Int :=
  s.carts.find? (fun x => x = c)

/-- Modelled from the spec: in `create_shopcarts` (routes.py line 101)
the lookup argument is `shopcart.id`, the identity attribute of the
deserialized in-memory cart; models.py gives `Shopcart` no `id` column,
and per spec section 3 the identity of a Shopcart is its `customer_id`,
so the attribute read yields the deserialized `customer_id` value.  A
query comparing the integer `customer_id` column with a non-integer
value matches no row. -/
def Shopcart.find_by_id_value (v : JVal) (s : DBState) : Option Int :=
  match v with
  | .jint n => Shopcart.find_by_id n s
  | _ => none

/-- `Shopcart.delete` (models.py lines 169-174): `db.session.delete`
on the cart followed by commit deletes the `shopcart` row.  The
`products` relationship is declared with `passive_deletes=True` and no
ORM delete cascade, and the foreign key (models.py lines 64-66) has no
`ON DELETE` action, so the flush touches no `product` row: the product
rows of the deleted cart remain in the table. -/
def Shopcart.delete (c : Int) (s : DBState) : DBState :=
  { s with carts := s.carts.erase c }

/-- `Product.find` (models.py lines 68-72): primary-key lookup. -/
def Product.find (pid : Int) (s : DBState) : Option ProductRow :=
  s.products.find? (fun p => p.id = pid)

/-- `Product.filter_by_product_name` (models.py lines 135-142):
`cls.query.filter(cls.name == product_name)`. -/
def Product.filter_by_product_name (nm : String) (s : DBState) : List ProductRow :=
  s.products.filter (fun p => p.name = nm)

/-- `Shopcart.filter_by_product_name` (models.py lines 222-227): one
`find_by_customer_id` lookup per matching product, collected in a list
comprehension with no deduplication. -/
def Shopcart.filter_by_product_name (nm : String) (s : DBState) : List (Option Int) :=
  (Product.filter_by_product_name nm s).map
    (fun p => Shopcart.find_by_customer_id p.shopcart_id s)

/-!
## Flushing in-memory products into the store

`add_products` and `create_shopcarts` never call `Product.create`
(models.py lines 95-102, the only place that resets `self.id = None`):
they attach the deserialized object to the `products` relationship of a
persistent cart and commit.  The flush then inserts the row with the
foreign key taken from the owning cart and the primary key taken from
the attribute set by `deserialize`: a `None` id lets the store generate
the next key (max existing id plus one), an integer id is used as
given, and an insert that violates primary-key uniqueness or a column
type fails, rolling the transaction back.
-/

/-- The next store-generated `product` primary key. -/
def freshId (ps : List ProductRow) : Int :=
  (ps.map (fun p => p.id)).foldr max 0 + 1

/-- Reading a value into the Float column `price`: integers widen. -/
def asRat : JVal → Option Rat
  | .jrat q => some q
  | .jint n => some (n : Rat)
  | _ => none

/-- Flushing one in-memory product attached to the cart `ownerId`:
returns the inserted row and the new state, or `none` when the commit
fails (ill-typed column value, or duplicate primary key). -/
def ProductObj.flushInsert (p : ProductObj) (ownerId : Int) (s : DBState) :
    Option (ProductRow × DBState) :=
  match p.name, p.quantity, asRat p.price with
  | .jstr nm, .jint qt, some pr =>
    let newId : Option Int :=
      match p.id with
      | .jnull => some (freshId s.products)
      | .jint n => if (s.products.map (fun q => q.id)).contains n then none else some n
      | _ => none
    match newId with
    | none => none
    | some i =>
      let row : ProductRow := ⟨i, ownerId, nm, pr, qt⟩
      some (row, { s with products := s.products ++ [row] })
  | _, _, _ => none

/-- Flushing a list of attached products in order. -/
def insertProducts : List ProductObj → Int → DBState → Option DBState
  | [], _, s => some s
  | p :: rest, ownerId, s =>
    match p.flushInsert ownerId s with
    | none => none
    | some (_, s1) => insertProducts rest ownerId s1

/-!
## Routes (src/service/routes.py)
-/

/-- A Flask response: a JSON body with a status code, an empty body
with a status code, or an `abort` / uncaught exception turned into an
error status with a message. -/
inductive Resp where
  | json (status : Nat) (body : JVal)
  | empty (status : Nat)
  | httpError (status : Nat) (msg : String)

/-- `get_shopcarts` (routes.py lines 31-45): look the cart up; missing
carts abort with 400 BAD REQUEST; otherwise 200 with the serialized
cart. -/
def get_shopcarts (id : Int) (s : DBState) : Resp × DBState :=
  match Shopcart.find_by_id id s with
  | none => (.httpError 400 "Shopcart could not be found.", s)
  | some _ => (.json 200 (Shopcart.serialize (loadCart id s)), s)

/-- `delete_shopcarts` (routes.py lines 75-85): delete the cart when
it exists; always answer 204 NO CONTENT. -/
def delete_shopcarts (id : Int) (s : DBState) : Resp × DBState :=
  match Shopcart.find_by_id id s with
  | none => (.empty 204, s)
  | some _ => (.empty 204, Shopcart.delete id s)

/-- `create_shopcarts` (routes.py lines 91-111): deserialize the body
into a fresh cart (an uncaught `DataValidationError` becomes a 500);
look up `shopcart.id` (the deserialized identity) and abort 409 when a
cart with that identity exists; otherwise `shopcart.create(id)` sets
`customer_id` to the path id and commits, which also flush-inserts the
products the body carried (they were appended to the `products`
relationship by `deserialize`); the response re-reads and serializes
the created cart.  A failed commit (duplicate path id or bad product
data) rolls back fully. -/
def create_shopcarts (pathId : Int) (body : JVal) (s : DBState) : Resp × DBState :=
  match Shopcart.deserialize ⟨.jnull, []⟩ body with
  | .error _ => (.httpError 500 "DataValidationError", s)
  | .ok cart =>
    match Shopcart.find_by_id_value cart.customer_id s with
    | some _ => (.httpError 409 "Shopcart already exists", s)
    | none =>
      if pathId ∈ s.carts then (.httpError 500 "IntegrityError", s)
      else
        let s1 : DBState := { s with carts := s.carts ++ [pathId] }
        match insertProducts cart.products pathId s1 with
        | none => (.httpError 500 "IntegrityError", s)
        | some s2 => (.json 201 (Shopcart.serialize (loadCart pathId s2)), s2)

/-- `list_products` (routes.py lines 117-129). -/
def list_products (id : Int) (s : DBState) : Resp × DBState :=
  match Shopcart.find_by_id id s with
  | none => (.httpError 400 "Shopcart could not be found.", s)
  | some _ =>
    (.json 200 (.jarr ((cartProducts id s).map
      (fun p => Product.serialize p.toObj))), s)

/-- `get_products` (routes.py lines 135-152): only `product_id` is
looked up; the path cart id is never used. -/
def get_products (id productId : Int) (s : DBState) : Resp × DBState :=
  match Product.find productId s with
  | none => (.httpError 404 "Product could not be found.", s)
  | some row => (.json 200 (Product.serialize row.toObj), s)

/-- `add_products` (routes.py lines 158-179): the cart must exist
(else 404); the body is deserialized as a Product (an uncaught
`DataValidationError` becomes a 500); the object is appended to the
relationship and committed, so the flush inserts it with
`shopcart_id` taken from the owning cart and the id taken from the
body (`Product.create` is never called). -/
def add_products (pathId : Int) (body : JVal) (s : DBState) : Resp × DBState :=
  match Shopcart.find_by_id pathId s with
  | none => (.httpError 404 "Shopcart could not be found.", s)
  | some _ =>
    match Product.deserialize body with
    | .error _ => (.httpError 500 "DataValidationError", s)
    | .ok p =>
      match p.flushInsert pathId s with
      | none => (.httpError 500 "IntegrityError", s)
      | some (row, s1) => (.json 201 (Product.serialize row.toObj), s1)

/-- `delete_products` (routes.py lines 185-199): only `product_id` is
looked up; the row is deleted when present; always 204. -/
def delete_products (id productId : Int) (s : DBState) : Resp × DBState :=
  match Product.find productId s with
  | none => (.empty 204, s)
  | some _ =>
    (.empty 204, { s with products := s.products.filter (fun p => p.id ≠ productId) })

/-- `update_products` (routes.py lines 205-229): only `product_id` is
looked up (404 when absent); the loaded row is overwritten with the
deserialized body fields, then `product.id = product_id` restores the
path id before the commit, so the row keeps its id while every other
column, `shopcart_id` included, comes from the body; an ill-typed
column value fails the flush. -/
def update_products (id productId : Int) (body : JVal) (s : DBState) : Resp × DBState :=
  match Product.find productId s with
  | none => (.httpError 404 "Product could not be found.", s)
  | some _ =>
    match Product.deserialize body with
    | .error _ => (.httpError 500 "DataValidationError", s)
    | .ok p =>
      match p.shopcart_id, p.name, p.quantity, asRat p.price with
      | .jint sid, .jstr nm, .jint qt, some pr =>
        let row : ProductRow := ⟨productId, sid, nm, pr, qt⟩
        (.json 200 (Product.serialize row.toObj),
         { s with products := s.products.map (fun r => if r.id = productId then row else r) })
      | _, _, _, _ => (.httpError 500 "flush error", s)

/-- `clear_shopcarts` (routes.py lines 250-267): the cart must exist
(else 404); every product of the cart is deleted in the loop, the
emptied collection is committed, and the serialized cart (now with an
empty `products` list) is returned with 200. -/
def clear_shopcarts (id : Int) (s : DBState) : Resp × DBState :=
  match Shopcart.find_by_id id s with
  | none => (.httpError 404 "Shopcart could not be found.", s)
  | some _ =>
    let s1 : DBState := { s with products := s.products.filter (fun p => p.shopcart_id ≠ id) }
    (.json 200 (Shopcart.serialize (loadCart id s1)), s1)

/-!
## Helper lemmas
-/

/-- A primary-key query for a present key returns exactly that key. -/
theorem find_self_of_mem {c : Int} {l : List Int} (h : c ∈ l) :
    l.find? (fun x => x = c) = some c := by
  induction l with
  | nil => cases h
  | cons a rest ih =>
    rcases List.mem_cons.mp h with h1 | h2
    · subst h1; simp [List.find?]
    · by_cases hac : a = c
      · subst hac; simp [List.find?]
      · simp [List.find?, hac, ih h2]

/-- A primary-key query for an absent key returns nothing. -/
theorem find_self_of_not_mem {c : Int} {l : List Int} (h : c ∉ l) :
    l.find? (fun x => x = c) = none := by
  apply List.find?_eq_none.mpr
  intro x hx
  simp only [decide_eq_true_eq]
  intro hxc
  exact h (hxc ▸ hx)

/-- The primary-key query answers `some c` exactly for the stored key. -/
theorem find_eq_some_iff {l : List Int} {c : Int} (hc : c ∈ l) (d : Int) :
    l.find? (fun x => x = d) = some c ↔ d = c := by
  constructor
  · intro h
    have := List.find?_some h
    simp only [decide_eq_true_eq] at this
    exact this.symm
  · intro h
    subst h
    exact find_self_of_mem hc

/-- Deserializing a serialized product restores it field for field. -/
theorem product_serialize_roundtrip (p : ProductObj) :
    Product.deserialize (Product.serialize p) = .ok p := by
  simp [Product.serialize, Product.deserialize, jlookup]

/-- The deserialization loop over serialized products appends exactly
those products to the accumulated collection. -/
theorem deserializeProducts_serialize (ps : List ProductObj) :
    ∀ acc : List ProductObj,
      deserializeProducts (ps.map Product.serialize) acc = .ok (acc ++ ps) := by
  induction ps with
  | nil => intro acc; simp [deserializeProducts]
  | cons p rest ih =>
    intro acc
    simp only [List.map_cons, deserializeProducts, product_serialize_roundtrip p]
    rw [ih (acc ++ [p])]
    simp

/-- Filtering for a cart after filtering its products away is empty. -/
theorem filter_ne_filter_eq_nil (c : Int) (ps : List ProductRow) :
    (ps.filter (fun p => p.shopcart_id ≠ c)).filter (fun p => p.shopcart_id = c) = [] := by
  induction ps with
  | nil => rfl
  | cons p rest ih =>
    by_cases h : p.shopcart_id = c <;> simp [List.filter, h, ih]

/-!
## Claims
-/

/-- Claim C1, evaluated at the failing input.  The state holds the
single Shopcart `1` owning the single Product `10`.  `Shopcart.delete`
removes only the cart row: afterwards the cart table is empty, yet the
product row is still present, `Product.find 10` still returns it, and
its `shopcart_id` points at a cart that no longer exists — an orphan,
contradicting the cascade-on-delete invariant the spec states and the
`passive_deletes` flag in models.py line 157 intends. -/
theorem shopcart_delete_orphan_eval :
    (Shopcart.delete 1 ⟨[1], [⟨10, 1, "Widget", 9, 2⟩]⟩).carts = []
  ∧ (Shopcart.delete 1 ⟨[1], [⟨10, 1, "Widget", 9, 2⟩]⟩).products
      = [⟨10, 1, "Widget", 9, 2⟩]
  ∧ Product.find 10 (Shopcart.delete 1 ⟨[1], [⟨10, 1, "Widget", 9, 2⟩]⟩)
      = some ⟨10, 1, "Widget", 9, 2⟩ := by
  refine ⟨rfl, rfl, rfl⟩

/-- Claim C2, counterexample: cart `1` holds two Products named
`"Widget"`, and `Shopcart.filter_by_product_name "Widget"` returns the
cart twice — the list comprehension in models.py line 227 never
deduplicates, refuting the no-duplicates part of the claim. -/
theorem filter_by_product_name_duplicates :
    Shopcart.filter_by_product_name "Widget"
      ⟨[1], [⟨10, 1, "Widget", 9, 2⟩, ⟨11, 1, "Widget", 4, 1⟩]⟩
      = [some 1, some 1] := by
  decide

/-- Claim C4: serialization round-trips.  `deserialize (serialize x)`
restores a Product field for field (id, shopcart_id, name, price,
quantity), and restores a freshly deserialized Shopcart field for
field: the `customer_id` and the products list in order (the receiving
cart is fresh, with the empty collection the constructor gives it). -/
theorem serialize_deserialize_roundtrip :
    (∀ p : ProductObj, Product.deserialize (Product.serialize p) = .ok p)
  ∧ (∀ cart : ShopcartObj,
      Shopcart.deserialize ⟨.jnull, []⟩ (Shopcart.serialize cart) = .ok cart) := by
  constructor
  · exact product_serialize_roundtrip
  · intro cart
    simp [Shopcart.serialize, Shopcart.deserialize, jlookup, iterElems,
      deserializeProducts_serialize]

/-- Counting one cart in the mapped lookups equals counting its
matching products, provided the cart exists. -/
theorem count_filter_map_lookup (carts : List Int) (c : Int) (hc : c ∈ carts)
    (nm : String) (ps : List ProductRow) :
    ((ps.filter (fun p => p.name = nm)).map
        (fun p => carts.find? (fun x => x = p.shopcart_id))).count (some c)
      = (ps.filter (fun p => p.name = nm ∧ p.shopcart_id = c)).length := by
  induction ps with
  | nil => rfl
  | cons p rest ih =>
    by_cases hn : p.name = nm
    · by_cases hs : p.shopcart_id = c
      · have heq := find_self_of_mem hc
        simp [List.filter, hn, hs, List.count_cons, heq, ih]
      · have hne : carts.find? (fun x => x = p.shopcart_id) ≠ some c := by
          intro h; exact hs ((find_eq_some_iff hc p.shopcart_id).mp h)
        simp [List.filter, hn, hs, List.count_cons, hne, ih]
    · simp [List.filter, hn, ih]

/-- Claim C2 (amended): `Shopcart.filter_by_product_name n` returns
the owning cart of each Product named exactly `n`, one entry per
matching Product, without deduplication: a cart holding `k` Products
named `n` occurs `k` times in the result, and the carts occurring in
the result are exactly the existing carts containing at least one
Product named `n`. -/
theorem filter_by_product_name_per_match (nm : String) (s : DBState) (c : Int)
    (hc : c ∈ s.carts) :
    (Shopcart.filter_by_product_name nm s).count (some c)
      = (s.products.filter (fun p => p.name = nm ∧ p.shopcart_id = c)).length
  ∧ (some c ∈ Shopcart.filter_by_product_name nm s
      ↔ ∃ p ∈ s.products, p.name = nm ∧ p.shopcart_id = c) := by
  constructor
  · exact count_filter_map_lookup s.carts c hc nm s.products
  · simp [Shopcart.filter_by_product_name, Product.filter_by_product_name,
      Shopcart.find_by_customer_id, List.mem_map, List.mem_filter,
      find_eq_some_iff hc]
    tauto

/-- Witness for the amended C2 at a concrete state: cart `1` holds two
Products named `"Widget"` and is counted twice. -/
theorem filter_by_product_name_per_match_witness :
    (Shopcart.filter_by_product_name "Widget"
        ⟨[1], [⟨10, 1, "Widget", 9, 2⟩, ⟨11, 1, "Widget", 4, 1⟩]⟩).count (some 1) = 2 := by
  have h := (filter_by_product_name_per_match "Widget"
    ⟨[1], [⟨10, 1, "Widget", 9, 2⟩, ⟨11, 1, "Widget", 4, 1⟩]⟩ 1 (by decide)).1
  rw [h]
  decide

/-- Claim C3: when a Shopcart with the requested customer id already
exists, the create route answers 409 CONFLICT before any mutation, so
the database (the existing cart row and every product row) is exactly
what it was. -/
theorem create_shopcarts_conflict (c : Int) (body : JVal) (s : DBState)
    (cart : ShopcartObj)
    (hmem : c ∈ s.carts)
    (hbody : Shopcart.deserialize ⟨.jnull, []⟩ body = .ok cart)
    (hcid : cart.customer_id = .jint c) :
    create_shopcarts c body s = (.httpError 409 "Shopcart already exists", s) := by
  have hf := find_self_of_mem hmem
  simp [create_shopcarts, hbody, Shopcart.find_by_id_value, hcid,
    Shopcart.find_by_id, hf]

/-- Witness for C3: creating cart `7` again conflicts and leaves the
state untouched. -/
theorem create_shopcarts_conflict_witness :
    create_shopcarts 7 (.jobj [("customer_id", .jint 7), ("products", .jarr [])])
        ⟨[7], []⟩
      = (.httpError 409 "Shopcart already exists", ⟨[7], []⟩) :=
  create_shopcarts_conflict 7 _ ⟨[7], []⟩ ⟨.jint 7, []⟩ (by decide) rfl rfl

/-- Claim C5: `find_by_customer_id` returns the Shopcart with the
requested customer id exactly when it exists and a not-found signal
(`none`, surfaced by the route as its could-not-be-found abort)
otherwise; the retrieve route then serializes the cart together with
its products. -/
theorem find_by_customer_id_spec (c : Int) (s : DBState) :
    (c ∈ s.carts →
       Shopcart.find_by_customer_id c s = some c
     ∧ get_shopcarts c s = (.json 200 (Shopcart.serialize (loadCart c s)), s))
  ∧ (c ∉ s.carts →
       Shopcart.find_by_customer_id c s = none
     ∧ get_shopcarts c s = (.httpError 400 "Shopcart could not be found.", s)) := by
  constructor
  · intro h
    have hf := find_self_of_mem h
    exact ⟨hf, by simp [get_shopcarts, Shopcart.find_by_id, hf]⟩
  · intro h
    have hf := find_self_of_not_mem h
    exact ⟨hf, by simp [get_shopcarts, Shopcart.find_by_id, hf]⟩

/-- Witness for C5 at a concrete state, on both branches. -/
theorem find_by_customer_id_spec_witness :
    Shopcart.find_by_customer_id 1 ⟨[1], []⟩ = some 1
  ∧ Shopcart.find_by_customer_id 2 ⟨[1], []⟩ = none :=
  ⟨((find_by_customer_id_spec 1 ⟨[1], []⟩).1 (by decide)).1,
   ((find_by_customer_id_spec 2 ⟨[1], []⟩).2 (by decide)).1⟩

/-- Claim C6, counterexample.  First, on the empty dictionary the code
reports `shopcart_id` as the first missing field — the first key read
by the assignment order of models.py lines 121-125 — while the claim
demands the first field of the serialization order, which is `id`.
Second, a dictionary carrying all five keys with a string where the
claim requires a number for `price` deserializes successfully instead
of raising the distinct wrong-type error: the assignments perform no
type check. -/
theorem product_deserialize_contract_counterexample :
    Product.deserialize (.jobj []) = .error (.productMissing "shopcart_id")
  ∧ ("shopcart_id" : String) ≠ "id"
  ∧ Product.deserialize (.jobj
      [("id", .jint 1), ("shopcart_id", .jint 2), ("name", .jstr "A"),
       ("price", .jstr "oops"), ("quantity", .jint 3)])
      = .ok ⟨.jint 1, .jint 2, .jstr "A", .jstr "oops", .jint 3⟩ :=
  ⟨rfl, by decide, rfl⟩

/-- Claim C6 (amended): deserializing a dictionary succeeds exactly
when all five keys `id`, `shopcart_id`, `name`, `price`, `quantity`
are present, with no constraint on the types of the values; a missing
key raises the error naming the first missing field in the assignment
order `shopcart_id`, `name`, `price`, `quantity`, `id` (not the
serialization order). -/
theorem product_deserialize_contract (kvs : List (String × JVal)) :
    (jlookup kvs "shopcart_id" = none →
      Product.deserialize (.jobj kvs) = .error (.productMissing "shopcart_id"))
  ∧ (∀ sid, jlookup kvs "shopcart_id" = some sid →
      jlookup kvs "name" = none →
      Product.deserialize (.jobj kvs) = .error (.productMissing "name"))
  ∧ (∀ sid nm, jlookup kvs "shopcart_id" = some sid →
      jlookup kvs "name" = some nm →
      jlookup kvs "price" = none →
      Product.deserialize (.jobj kvs) = .error (.productMissing "price"))
  ∧ (∀ sid nm pr, jlookup kvs "shopcart_id" = some sid →
      jlookup kvs "name" = some nm →
      jlookup kvs "price" = some pr →
      jlookup kvs "quantity" = none →
      Product.deserialize (.jobj kvs) = .error (.productMissing "quantity"))
  ∧ (∀ sid nm pr qt, jlookup kvs "shopcart_id" = some sid →
      jlookup kvs "name" = some nm →
      jlookup kvs "price" = some pr →
      jlookup kvs "quantity" = some qt →
      jlookup kvs "id" = none →
      Product.deserialize (.jobj kvs) = .error (.productMissing "id"))
  ∧ (∀ sid nm pr qt i, jlookup kvs "shopcart_id" = some sid →
      jlookup kvs "name" = some nm →
      jlookup kvs "price" = some pr →
      jlookup kvs "quantity" = some qt →
      jlookup kvs "id" = some i →
      Product.deserialize (.jobj kvs) = .ok ⟨i, sid, nm, pr, qt⟩) := by
  refine ⟨?_, ?_, ?_, ?_, ?_, ?_⟩ <;> (intros; simp [Product.deserialize, *])

/-- Witness for the amended C6: a dictionary holding only
`shopcart_id` is reported as missing `name`. -/
theorem product_deserialize_contract_witness :
    Product.deserialize (.jobj [("shopcart_id", .jint 1)])
      = .error (.productMissing "name") :=
  (product_deserialize_contract [("shopcart_id", .jint 1)]).2.1 (.jint 1) rfl rfl

/-- Claim C7: clearing an existing cart deletes exactly the products
owned by it, the cart row itself survives with its customer id, a
subsequent find succeeds, the cart's product collection is empty, and
the response serializes the cart with an empty products list. -/
theorem clear_shopcarts_spec (c : Int) (s : DBState) (h : c ∈ s.carts) :
    (clear_shopcarts c s).2.carts = s.carts
  ∧ (clear_shopcarts c s).2.products
      = s.products.filter (fun p => p.shopcart_id ≠ c)
  ∧ cartProducts c (clear_shopcarts c s).2 = []
  ∧ Shopcart.find_by_customer_id c (clear_shopcarts c s).2 = some c
  ∧ (clear_shopcarts c s).1 = .json 200 (Shopcart.serialize ⟨.jint c, []⟩) := by
  have hf := find_self_of_mem h
  refine ⟨?_, ?_, ?_, ?_, ?_⟩
  · simp [clear_shopcarts, Shopcart.find_by_id, hf]
  · simp [clear_shopcarts, Shopcart.find_by_id, hf]
  · simp only [clear_shopcarts, Shopcart.find_by_id, hf]
    simp [cartProducts, filter_ne_filter_eq_nil]
  · simp only [clear_shopcarts, Shopcart.find_by_id, hf]
    simpa [Shopcart.find_by_customer_id] using hf
  · simp [clear_shopcarts, Shopcart.find_by_id, hf, Shopcart.serialize,
      loadCart, cartProducts, filter_ne_filter_eq_nil]

/-- Witness for C7 at a concrete cart with one product. -/
theorem clear_shopcarts_spec_witness :
    (clear_shopcarts 1 ⟨[1], [⟨10, 1, "Widget", 9, 2⟩]⟩).2.products = []
  ∧ Shopcart.find_by_customer_id 1
      (clear_shopcarts 1 ⟨[1], [⟨10, 1, "Widget", 9, 2⟩]⟩).2 = some 1 := by
  have h := clear_shopcarts_spec 1 ⟨[1], [⟨10, 1, "Widget", 9, 2⟩]⟩ (by decide)
  exact ⟨by rw [h.2.1]; decide, h.2.2.2.1⟩

/-- Claim C8: the delete route always answers 204 NO CONTENT; deleting
an absent cart changes nothing, and repeating a delete reaches the
same end state as performing it once (customer ids are unique, as the
primary key guarantees). -/
theorem delete_shopcarts_idempotent (c : Int) (s : DBState)
    (hnd : s.carts.Nodup) :
    (delete_shopcarts c s).1 = .empty 204
  ∧ (c ∉ s.carts → delete_shopcarts c s = (.empty 204, s))
  ∧ (delete_shopcarts c (delete_shopcarts c s).2).2 = (delete_shopcarts c s).2 := by
  by_cases hm : c ∈ s.carts
  · have hf := find_self_of_mem hm
    have hne : c ∉ s.carts.erase c := by
      intro hmem
      exact ((List.Nodup.mem_erase_iff hnd).mp hmem).1 rfl
    have hf2 := find_self_of_not_mem hne
    refine ⟨?_, ?_, ?_⟩
    · simp [delete_shopcarts, Shopcart.find_by_id, hf]
    · intro h; exact absurd hm h
    · simp [delete_shopcarts, Shopcart.find_by_id, Shopcart.delete, hf, hf2]
  · have hf := find_self_of_not_mem hm
    refine ⟨?_, ?_, ?_⟩ <;>
      simp [delete_shopcarts, Shopcart.find_by_id, Shopcart.delete, hf]

/-- Witness for C8: deleting the absent cart `99` answers 204 and
leaves the store unchanged. -/
theorem delete_shopcarts_idempotent_witness :
    delete_shopcarts 99 ⟨[7], []⟩ = (.empty 204, ⟨[7], []⟩) :=
  (delete_shopcarts_idempotent 99 ⟨[7], []⟩ (by decide)).2.1 (by decide)

/-- Claim C9, counterexample: a creation request carrying `id = 77`
against a store with no products ends with the stored row having id
`77` — the client-supplied id, not the next store-generated key `1`:
the add-product route commits the deserialized object directly and
never calls `Product.create`, the only code that discards the id. -/
theorem add_products_keeps_client_id_eval :
    (add_products 1 (.jobj
        [("id", .jint 77), ("shopcart_id", .jint 1), ("name", .jstr "Widget"),
         ("price", .jrat 9), ("quantity", .jint 2)]) ⟨[1], []⟩).2.products
      = [⟨77, 1, "Widget", 9, 2⟩]
  ∧ freshId ([] : List ProductRow) = 1
  ∧ (77 : Int) ≠ 1 := by
  refine ⟨rfl, rfl, by decide⟩

/-- Claim C9 (amended): the add-product route inserts the deserialized
product directly (never calling `Product.create`), so the stored id is
store-generated only when the body supplies a null id; a client-
supplied integer id becomes the created row identity.  The claim
holds of the owning-cart column instead: the body `shopcart_id` is
discarded in favour of the path cart id. -/
theorem add_products_generates_id_when_null (pathId : Int) (body : JVal)
    (s : DBState) (p : ProductObj) (nm : String) (qt : Int) (pr : Rat)
    (hmem : pathId ∈ s.carts)
    (hbody : Product.deserialize body = .ok p)
    (hid : p.id = .jnull)
    (hnm : p.name = .jstr nm)
    (hqt : p.quantity = .jint qt)
    (hpr : asRat p.price = some pr) :
    add_products pathId body s
      = (.json 201 (Product.serialize
            (ProductRow.toObj ⟨freshId s.products, pathId, nm, pr, qt⟩)),
         { s with products := s.products ++ [⟨freshId s.products, pathId, nm, pr, qt⟩] }) := by
  have hf := find_self_of_mem hmem
  simp [add_products, Shopcart.find_by_id, hf, hbody, ProductObj.flushInsert,
    hid, hnm, hqt, hpr]

/-- Witness for the amended C9: a null body id yields the generated
key `1` and the path cart as owner, ignoring the body `shopcart_id`. -/
theorem add_products_generates_id_when_null_witness :
    add_products 1 (.jobj
        [("id", .jnull), ("shopcart_id", .jint 5), ("name", .jstr "Gadget"),
         ("price", .jrat 3), ("quantity", .jint 4)]) ⟨[1], []⟩
      = (.json 201 (Product.serialize
            (ProductRow.toObj ⟨freshId ([] : List ProductRow), 1, "Gadget", 3, 4⟩)),
         ⟨[1], [⟨freshId ([] : List ProductRow), 1, "Gadget", 3, 4⟩]⟩) :=
  add_products_generates_id_when_null 1 _ ⟨[1], []⟩
    ⟨.jnull, .jint 5, .jstr "Gadget", .jrat 3, .jint 4⟩ "Gadget" 4 3
    (by decide) rfl rfl rfl rfl rfl

/-- Claim C10: the retrieve, update and delete product routes read
only the product id from the path: their results are identical for
every value of the cart id segment, the product found is returned even
when its `shopcart_id` differs from the path cart id, and the
existence of the path cart is never checked. -/
theorem product_routes_ignore_cart_id (x y productId : Int) (body : JVal)
    (s : DBState) :
    get_products x productId s = get_products y productId s
  ∧ delete_products x productId s = delete_products y productId s
  ∧ update_products x productId body s = update_products y productId body s
  ∧ (∀ row, Product.find productId s = some row →
       get_products x productId s = (.json 200 (Product.serialize row.toObj), s)) := by
  refine ⟨rfl, rfl, rfl, ?_⟩
  intro row hrow
  simp [get_products, hrow]

/-- Witness for C10: product `10` belongs to cart `5`, the path names
the nonexistent cart `3`, and the retrieve still returns it. -/
theorem product_routes_ignore_cart_id_witness :
    get_products 3 10 ⟨[], [⟨10, 5, "Widget", 9, 2⟩]⟩
      = (.json 200 (Product.serialize (ProductRow.toObj ⟨10, 5, "Widget", 9, 2⟩)),
         ⟨[], [⟨10, 5, "Widget", 9, 2⟩]⟩) :=
  (product_routes_ignore_cart_id 3 4 10 .jnull
    ⟨[], [⟨10, 5, "Widget", 9, 2⟩]⟩).2.2.2 _ rfl

end Shopcarts
